import Mathlib

/-!
Verification development for the WinIoT backend (src/winiot-backend.py):
a local HTTP control surface exposing monitor power/brightness control
(via the external Twinkle Tray executable) and system audio mute control
(via pycaw/COM).

The Python source is shallowly embedded: module-level configuration and
the outcomes of external interactions (subprocess execution, COM calls)
become explicit parameters, fallible functions that return the Python
pair idiom `(value, None) / (None, error)` become `Except`, and the HTTP
handlers become pure functions from those parameters to a response
record capturing the JSON fields and HTTP status code that matter here.
-/

set_option autoImplicit false

namespace WinIoT

/-- Python truthiness for strings: `a or b` returns `a` when `a` is
nonempty and `b` otherwise. -/
def pyOr (a b : String) : String :=
  if a = "" then b else a

/-- Drops leading whitespace characters from a character list. -/
def dropLeadingWs : List Char → List Char
  | [] => []
  | c :: cs => if c.isWhitespace then dropLeadingWs cs else c :: cs

/-- Embeds Python `str.strip()`: removes whitespace from both ends. -/
def pyStrip (s : String) : String :=
  ⟨dropLeadingWs (dropLeadingWs s.data.reverse).reverse⟩

/-- ASCII lower-casing of one character. -/
def pyLowerChar (c : Char) : Char :=
  if 'A' ≤ c ∧ c ≤ 'Z' then Char.ofNat (c.toNat + 32) else c

/-- Embeds Python `str.lower()` on the ASCII range the source compares
against (`"powershell"`, `"all"`, `"already initialized"`). -/
def pyLower (s : String) : String :=
  ⟨s.data.map pyLowerChar⟩

/-- ASCII upper-casing of one character. -/
def pyUpperChar (c : Char) : Char :=
  if 'a' ≤ c ∧ c ≤ 'z' then Char.ofNat (c.toNat - 32) else c

/-- Embeds Python `str.upper()` on the ASCII range the source compares
against (`"RPC_E_CHANGED_MODE"`). -/
def pyUpper (s : String) : String :=
  ⟨s.data.map pyUpperChar⟩

/-- Module-level executable configuration: `twinkle_tray_base_path`,
`twinkle_tray_base_path_found`, and whether `shutil.which` resolves the
base path on the search path at call time. -/
structure ExeConfig where
  basePath : String
  baseFound : Bool
  whichOk : Bool
  deriving Repr, DecidableEq

/-- Error text built from `f"Twinkle Tray 可执行文件 '{path}' 未找到。"`. -/
def exeNotFoundMsg (path : String) : String :=
  "Twinkle Tray 可执行文件 \x27" ++ path ++ "\x27 未找到。"

/-- Error text for a non-positive power-command monitor number. -/
def posIntMsg : String := "显示器编号必须是一个正整数。"

/-- VCP code passed by the power-on endpoint. -/
def powerOnVcp : String := "0xD6:1"

/-- VCP code passed by the power-off endpoint. -/
def powerOffVcp : String := "0xD6:5"

/-- Embeds `get_twinkle_power_command_parts` (source lines 157-163). The
Python function returns the pair `(parts, None)` on success and
`(None, error)` on failure; that pair idiom is rendered as `Except`.
The route converter guarantees `monitor_num` is an `int`, so the
`isinstance` half of the source check is always true and the model keeps
only the sign test. -/
def get_twinkle_power_command_parts (cfg : ExeConfig) (monitor_num : Int)
    (power_state_vcp : String) : Except String (List String) :=
  if cfg.baseFound = false ∧ cfg.whichOk = false then
    .error (exeNotFoundMsg cfg.basePath)
  else if monitor_num ≤ 0 then
    .error posIntMsg
  else
    .ok [cfg.basePath, "--MonitorNum=" ++ toString monitor_num,
         "--VCP=" ++ power_state_vcp]

/-- Brightness level argument as the handler receives it: the source
checks `isinstance(brightness_level, int)`, so the model distinguishes
an integer level from a non-integer value. -/
inductive PyLevel where
  | pyInt (n : Int)
  | nonInt
  deriving Repr, DecidableEq

/-- Embeds `valid_brightness = isinstance(brightness_level, int) and 0 <= brightness_level <= 100`. -/
def valid_brightness : PyLevel → Bool
  | .pyInt n => decide (0 ≤ n ∧ n ≤ 100)
  | .nonInt => false

/-- Rendering of the validated level inside `f"--Set={brightness_level}"`;
only reached when `valid_brightness` holds, hence on `pyInt`. -/
def levelStr : PyLevel → String
  | .pyInt n => toString n
  | .nonInt => ""

/-- Error text for an out-of-range or non-integer brightness level. -/
def brightnessRangeMsg : String := "亮度值必须是 0 到 100 之间的整数。"

/-- Error text for a negative monitor number in the brightness builder. -/
def negMonitorMsg : String := "显示器编号不能为负数。"

/-- Error text from `f"无效的显示器编号: '{monitor_num_input}'。应为正整数, 0, 或 'all'。"`. -/
def invalidMonitorMsg (raw : String) : String :=
  "无效的显示器编号: \x27" ++ raw ++ "\x27。应为正整数, 0, 或 \x27all\x27。"

/-- The monitor selector as the brightness endpoint receives it: the raw
path string together with the outcome of Python `int(raw)` —
`some n` when the conversion succeeds and `none` when it raises
`ValueError`. -/
structure SelInput where
  raw : String
  parsed : Option Int
  deriving Repr, DecidableEq

/-- Embeds `get_twinkle_brightness_command_parts` (source lines 184-203),
with the `(parts, error)` pair rendered as `Except`. The `try int(...)`
dispatch becomes a match on `sel.parsed`; the `except ValueError` branch
checks `str(input).lower() == "all"` on the raw string. -/
def get_twinkle_brightness_command_parts (cfg : ExeConfig) (sel : SelInput)
    (lvl : PyLevel) : Except String (List String) :=
  if cfg.baseFound = false ∧ cfg.whichOk = false then
    .error (exeNotFoundMsg cfg.basePath)
  else if valid_brightness lvl = false then
    .error brightnessRangeMsg
  else
    match sel.parsed with
    | some n =>
      if n = 0 then
        .ok [cfg.basePath, "--AllMonitors", "--Set=" ++ levelStr lvl]
      else if 0 < n then
        .ok [cfg.basePath, "--MonitorNum=" ++ toString n, "--Set=" ++ levelStr lvl]
      else
        .error negMonitorMsg
    | none =>
      if pyLower sel.raw = "all" then
        .ok [cfg.basePath, "--AllMonitors", "--Set=" ++ levelStr lvl]
      else
        .error (invalidMonitorMsg sel.raw)

/-- Value of `subprocess.CREATE_NO_WINDOW` on Windows (0x08000000). -/
def CREATE_NO_WINDOW : Nat := 134217728

/-- Embeds the `creationflags` computation of `run_command` (source lines
132-134): the no-window flag is applied only when the first command part
is the literal `powershell`, case-insensitively. -/
def creationFlags (cmdHead : String) : Nat :=
  if pyLower cmdHead = "powershell" then CREATE_NO_WINDOW else 0

/-- Timeout handed to `process.communicate(timeout=15)`. -/
def commandTimeoutSeconds : Nat := 15

/-- Behaviour of one subprocess invocation, covering the four paths the
source `try` block distinguishes: a normal exit with a return code and
captured streams, expiry of the communicate timeout, `FileNotFoundError`
from `Popen`, and any other exception. -/
inductive ProcOutcome where
  | completed (returncode : Int) (stdout stderr : String)
  | timedOut
  | fileNotFound
  | otherError (msg : String)
  deriving Repr, DecidableEq

/-- Generic success phrase used when trimmed stdout is empty. -/
def genericSuccessMsg : String := "命令成功执行。"

/-- Failure message returned on `subprocess.TimeoutExpired`. -/
def timeoutMsg : String := "命令执行超时。"

/-- Leading text of the nonzero-exit failure message `f"执行命令出错: {...}"`. -/
def execErrorLead : String := "执行命令出错: "

/-- Last-resort error text `f"未知错误 (返回码: {rc})"` embedding the exit code. -/
def unknownErrMsg (rc : Int) : String :=
  "未知错误 (返回码: " ++ toString rc ++ ")"

/-- Result of `run_command`: the `(success, message)` pair the source
returns, plus a trace of whether the timeout path killed the child
(`process.kill()`) and drained its output (the follow-up
`process.communicate()`). -/
structure RunResult where
  success : Bool
  message : String
  killed : Bool
  drained : Bool
  deriving Repr, DecidableEq

/-- Embeds `run_command` (source lines 129-154) as a total function of
the command and the subprocess behaviour: every exceptional path is
caught inside the source function, which always returns a
`(success, message)` pair and never propagates an exception. On timeout
the child is killed and drained before the failure pair is returned. -/
def run_command (cmd : List String) (outcome : ProcOutcome) : RunResult :=
  match outcome with
  | .completed rc out err =>
    if rc = 0 then
      ⟨true, pyOr (pyStrip out) genericSuccessMsg, false, false⟩
    else
      ⟨false,
       execErrorLead ++ pyOr (pyStrip err) (pyOr (pyStrip out) (unknownErrMsg rc)),
       false, false⟩
  | .timedOut =>
    ⟨false, timeoutMsg, true, true⟩
  | .fileNotFound =>
    ⟨false, "错误：可执行文件 \x27" ++ (cmd.headD "") ++ "\x27 未找到。", false, false⟩
  | .otherError msg =>
    ⟨false, "发生意外错误: " ++ msg, false, false⟩

/-- The slice of a handler response the claims are about: the HTTP
status code and the JSON fields `status`, `message`, `details`, and
`audio_muted` (the latter two absent from bodies that do not set them).
Other action-specific JSON fields (`monitor_num`, `action`, `target`,
`brightness_level`) are not modelled. -/
structure Resp where
  code : Nat
  status : String
  message : String
  details : Option String
  audio_muted : Option Bool
  deriving Repr, DecidableEq

/-- Embeds the handler `monitor_on_vcp` (source lines 165-172): build
the power command with VCP code `0xD6:1`, return 400 on a builder
error, otherwise run it and map success/failure to 200/500. -/
def monitor_on_vcp (cfg : ExeConfig) (monitor_num : Int) (proc : ProcOutcome) : Resp :=
  match get_twinkle_power_command_parts cfg monitor_num powerOnVcp with
  | .error e => ⟨400, "error", e, none, none⟩
  | .ok command_parts =>
    let r := run_command command_parts proc
    if r.success then
      ⟨200, "success", "显示器已通过 VCP 命令打开。", some r.message, none⟩
    else
      ⟨500, "error", "通过 VCP 命令打开显示器失败。", some r.message, none⟩

/-- Embeds the handler `monitor_off_vcp` (source lines 174-181), the
same shape as `monitor_on_vcp` with VCP code `0xD6:5`. -/
def monitor_off_vcp (cfg : ExeConfig) (monitor_num : Int) (proc : ProcOutcome) : Resp :=
  match get_twinkle_power_command_parts cfg monitor_num powerOffVcp with
  | .error e => ⟨400, "error", e, none, none⟩
  | .ok command_parts =>
    let r := run_command command_parts proc
    if r.success then
      ⟨200, "success", "显示器已通过 VCP 命令关闭/待机。", some r.message, none⟩
    else
      ⟨500, "error", "通过 VCP 命令关闭/待机显示器失败。", some r.message, none⟩

/-- Embeds Python `str.isdigit` restricted to ASCII content: nonempty
and all digit characters. -/
def pyIsDigit (s : String) : Bool :=
  decide (s.data ≠ []) && s.data.all Char.isDigit

/-- Embeds the `target_description` computation of
`set_monitor_brightness`: `f"显示器 {s}"` when the raw selector is all
digits and converts to a positive integer, `"所有显示器"` otherwise.
Under `isdigit` the source recomputes `int(s)`, which is the recorded
parse result. -/
def target_description (sel : SelInput) : String :=
  if pyIsDigit sel.raw && decide (0 < sel.parsed.getD 0) then
    "显示器 " ++ sel.raw
  else
    "所有显示器"

/-- Embeds the handler `set_monitor_brightness` (source lines 205-218).
The route converter makes `level` an `int`, so the builder receives
`PyLevel.pyInt level`. -/
def set_monitor_brightness (cfg : ExeConfig) (sel : SelInput) (level : Int)
    (proc : ProcOutcome) : Resp :=
  let target := target_description sel
  match get_twinkle_brightness_command_parts cfg sel (.pyInt level) with
  | .error e => ⟨400, "error", e, none, none⟩
  | .ok command_parts =>
    let r := run_command command_parts proc
    if r.success then
      ⟨200, "success", target ++ " 亮度已设置为 " ++ toString level ++ "%。",
       some r.message, none⟩
    else
      ⟨500, "error", "设置 " ++ target ++ " 亮度为 " ++ toString level ++ "% 失败。",
       some r.message, none⟩

/-- Embeds the handler `monitor_status_placeholder` (source lines
317-321): a fixed informational stub whose body carries status
`"info"`. -/
def monitor_status_placeholder (monitor_num : Int) : Resp :=
  if monitor_num ≤ 0 then
    ⟨400, "error", posIntMsg, none, none⟩
  else
    ⟨200, "info", "此接口为状态查询占位符。", none, none⟩

/-- Process-wide audio state fixed at import time: whether
`pycaw` (`AudioUtilities` together with `IAudioEndpointVolume`, imported
by one statement and therefore both present or both absent) loaded, and
whether `pythoncom` loaded. -/
structure AudioGlobals where
  pycawLoaded : Bool
  pythoncomLoaded : Bool
  deriving Repr, DecidableEq

/-- Behaviour of `pythoncom.CoInitializeEx` in one call: an HRESULT
return value, an `AttributeError`, or another exception carrying its
string form. -/
inductive CoInitOutcome where
  | hr (code : Int)
  | attrErr
  | exc (msg : String)
  deriving Repr, DecidableEq

/-- Substring occurrence, modelling Python `needle in haystack`. -/
def strContains (haystack needle : String) : Bool :=
  decide ((haystack.splitOn needle).length ≠ 1)

/-- The source swallows a `CoInitializeEx` exception whose text mentions
`already initialized` (lower-cased) or `RPC_E_CHANGED_MODE`
(upper-cased). -/
def benignComExc (msg : String) : Bool :=
  strContains (pyLower msg) "already initialized" ||
  strContains (pyUpper msg) "RPC_E_CHANGED_MODE"

/-- Behaviour of the body that resolves the speakers and activates the
volume interface: `GetSpeakers` returned a falsy value; `Activate`
returned an interface exposing `SetMute`/`GetMute`; the interface
lacked them but `QueryInterface(IAudioEndpointVolume)` produced one;
the chain produced no interface and no exception; an `AttributeError`;
or another exception. -/
inductive VolumeBodyOutcome where
  | noSpeakers
  | gotDirect
  | gotQueried
  | gotNone
  | attrError (msg : String)
  | exc (msg : String)
  deriving Repr, DecidableEq

/-- Behaviour of `pythoncom.CoUninitialize` in the `finally` block. -/
inductive UninitOutcome where
  | ok
  | exc (msg : String)
  deriving Repr, DecidableEq

/-- Outcomes of the external COM interactions during one
`_get_master_volume_control` call. -/
structure ComCallOutcome where
  coInit : CoInitOutcome
  body : VolumeBodyOutcome
  coUninit : UninitOutcome
  deriving Repr, DecidableEq

/-- Error text returned when pycaw or its components did not load. -/
def pycawMissingMsg : String := "pycaw 库或其必要组件未加载。"

/-- Embeds the COM-initialization phase (source lines 224-234). Returns
`.ok com_initialized_here` when control continues into the `try` block
and `.error message` for the early return on a non-benign exception
(which happens with `com_initialized_here` still false). `hr` values 0
and 1 set the flag; `RPC_E_CHANGED_MODE` (-2147417850), other HRESULTs,
`AttributeError` and benign exceptions leave it false. -/
def comPhase (g : AudioGlobals) (ci : CoInitOutcome) : Except String Bool :=
  if g.pythoncomLoaded = false then
    .ok false
  else
    match ci with
    | .hr code => .ok (decide (code = 0 ∨ code = 1))
    | .attrErr => .ok false
    | .exc msg =>
      if benignComExc msg then
        .ok false
      else
        .error ("COM 初始化失败: " ++ msg)

/-- Embeds the `try` body of `_get_master_volume_control` (source lines
236-250): whether a `master_volume` interface was obtained, and the
`error_message` set on the failure branches. -/
def volumeBody : VolumeBodyOutcome → Bool × Option String
  | .noSpeakers => (false, some "未能获取默认扬声器设备。")
  | .gotDirect => (true, none)
  | .gotQueried => (true, none)
  | .gotNone => (false, none)
  | .attrError m => (false, some ("获取主音量控制时出错 (AttributeError): " ++ m))
  | .exc m => (false, some ("获取主音量控制时出错: " ++ m))

/-- Result of `_get_master_volume_control`: the source returns either
`(master_volume, None)` or `(None, error)`, rendered as `Except`;
alongside it the model records the final value of the
`com_initialized_here` flag and whether the `finally` block called
`CoUninitialize`. -/
structure VolCtrlResult where
  result : Except String Unit
  comInitializedHere : Bool
  coUninitCalled : Bool
  deriving Repr

/-- Embeds `_get_master_volume_control` (source lines 221-257). The
early returns (pycaw missing, non-benign `CoInitializeEx` exception)
happen before the `try/finally`, so no `CoUninitialize` runs there; on
every path through the `try` body the `finally` block calls
`CoUninitialize` exactly when `com_initialized_here and pythoncom`
holds, and an exception from `CoUninitialize` is caught and logged as a
warning, so `c.coUninit` does not influence the returned value. -/
def _get_master_volume_control (g : AudioGlobals) (c : ComCallOutcome) : VolCtrlResult :=
  if g.pycawLoaded = false then
    ⟨.error pycawMissingMsg, false, false⟩
  else
    match comPhase g c.coInit with
    | .error msg => ⟨.error msg, false, false⟩
    | .ok initHere =>
      let bodyRes := volumeBody c.body
      let uninitCalled := initHere && g.pythoncomLoaded
      match bodyRes.2 with
      | some e => ⟨.error e, initHere, uninitCalled⟩
      | none =>
        if bodyRes.1 then
          ⟨.ok (), initHere, uninitCalled⟩
        else
          ⟨.error "未能成功激活主音量控制接口。", initHere, uninitCalled⟩

/-- Behaviour of `master_volume.GetMute()`: the returned integer, or an
exception. -/
inductive MuteReadOutcome where
  | ok (muted : Int)
  | exc (msg : String)
  deriving Repr, DecidableEq

/-- Behaviour of `master_volume.SetMute(...)`: success, or an
exception. -/
inductive MuteWriteOutcome where
  | ok
  | exc (msg : String)
  deriving Repr, DecidableEq

/-- Success message of `get_system_mute_status`. -/
def muteStatusOkMsg : String := "成功获取静音状态。"

/-- Embeds `get_system_mute_status` (source lines 270-279): the source
returns `(None, error)` on failure and `(bool(muted), message)` on
success, so the first component uses `none` as the failure sentinel and
`some` carries the boolean read. -/
def get_system_mute_status (g : AudioGlobals) (c : ComCallOutcome)
    (read : MuteReadOutcome) : Option Bool × String :=
  match (_get_master_volume_control g c).result with
  | .error err => (none, err)
  | .ok _ =>
    match read with
    | .ok muted => (some (muted != 0), muteStatusOkMsg)
    | .exc m => (none, "获取系统静音状态时出错: " ++ m)

/-- Embeds `set_system_mute` (source lines 259-268), returning the
source's `(success, message)` pair. -/
def set_system_mute (g : AudioGlobals) (c : ComCallOutcome)
    (write : MuteWriteOutcome) (mute_state : Bool) : Bool × String :=
  match (_get_master_volume_control g c).result with
  | .error err => (false, err)
  | .ok _ =>
    match write with
    | .ok =>
      (true, "系统主音量静音状态已设置为 " ++
        (if mute_state then "静音" else "取消静音") ++ "。")
    | .exc m => (false, "设置系统静音时出错: " ++ m)

/-- Fixed 503 body used by the audio handlers when pycaw is absent. -/
def audioUnavailableMsg : String := "音频控制功能不可用 (pycaw 未加载)。"

/-- Embeds the handler `audio_status` (source lines 308-314): the
success branch is taken exactly when the first component of
`get_system_mute_status` is not the `None` sentinel. -/
def audio_status (g : AudioGlobals) (c : ComCallOutcome)
    (read : MuteReadOutcome) : Resp :=
  if g.pycawLoaded = false then
    ⟨503, "error", audioUnavailableMsg, none, none⟩
  else
    match get_system_mute_status g c read with
    | (some muted, message) =>
      ⟨200, "success", "成功获取音频状态。", some message, some muted⟩
    | (none, message) =>
      ⟨500, "error", "获取音频状态失败。", some message, none⟩

/-- Embeds the handler `audio_mute` (source lines 281-287). -/
def audio_mute (g : AudioGlobals) (c : ComCallOutcome)
    (write : MuteWriteOutcome) : Resp :=
  if g.pycawLoaded = false then
    ⟨503, "error", audioUnavailableMsg, none, none⟩
  else
    let r := set_system_mute g c write true
    if r.1 then
      ⟨200, "success", "系统音频已静音。", some r.2, some true⟩
    else
      ⟨500, "error", "静音系统音频失败。", some r.2, none⟩

/-- Embeds the handler `audio_unmute` (source lines 290-296). -/
def audio_unmute (g : AudioGlobals) (c : ComCallOutcome)
    (write : MuteWriteOutcome) : Resp :=
  if g.pycawLoaded = false then
    ⟨503, "error", audioUnavailableMsg, none, none⟩
  else
    let r := set_system_mute g c write false
    if r.1 then
      ⟨200, "success", "系统音频已取消静音。", some r.2, some false⟩
    else
      ⟨500, "error", "取消系统音频静音失败。", some r.2, none⟩

/-- Result of the toggle handler: the HTTP response plus a trace of
whether `set_system_mute` was invoked and with which argument. -/
structure ToggleResult where
  resp : Resp
  writeCalled : Bool
  writeArg : Option Bool
  deriving Repr, DecidableEq

/-- Message of the toggle success body,
`f"系统音频静音状态已切换为: {...}"`. -/
def toggleSuccessMsg (newState : Bool) : String :=
  "系统音频静音状态已切换为: " ++ (if newState then "静音" else "取消静音")

/-- Embeds the handler `audio_mute_toggle` (source lines 298-306). The
read and the write each call `_get_master_volume_control` afresh, so
the two calls carry separate `ComCallOutcome`s. The source tests
`current_mute_state is None` to decide whether the read failed. -/
def audio_mute_toggle (g : AudioGlobals) (cR cW : ComCallOutcome)
    (read : MuteReadOutcome) (write : MuteWriteOutcome) : ToggleResult :=
  if g.pycawLoaded = false then
    ⟨⟨503, "error", audioUnavailableMsg, none, none⟩, false, none⟩
  else
    match get_system_mute_status g cR read with
    | (none, msg) =>
      ⟨⟨500, "error", "获取当前静音状态失败。", some msg, none⟩, false, none⟩
    | (some current, _) =>
      let newState := !current
      let r := set_system_mute g cW write newState
      if r.1 then
        ⟨⟨200, "success", toggleSuccessMsg newState, some r.2, some newState⟩,
         true, some newState⟩
      else
        ⟨⟨500, "error", "切换系统音频静音失败。", some r.2, none⟩,
         true, some newState⟩

/-! Theorems settling the claims. -/

/-- Claim C5 counterexample: the claim states that on a nonzero exit the
returned message IS the trimmed standard error; in the code the message
is the fixed lead `执行命令出错: ` followed by that fallback chain, so
for exit code 1 with stderr `boom` the message is not `boom`. -/
theorem C5_counterexample :
    (run_command ["tt.exe"] (.completed 1 "" "boom")).success = false ∧
    pyStrip "boom" = "boom" ∧
    ("boom" : String) ≠ "" ∧
    (run_command ["tt.exe"] (.completed 1 "" "boom")).message ≠ "boom" := by
  decide

/-- Claim C5 (amended): when the child exits within the timeout,
`run_command` succeeds iff the exit code is zero; on success the message
is the trimmed stdout, or the fixed generic success phrase when that is
empty; on failure the message is a fixed error lead followed by the
trimmed stderr, falling back to the trimmed stdout, falling back to a
phrase embedding the numeric exit code. -/
theorem C5_run_command_exit_mapping (cmd : List String) (rc : Int) (out err : String) :
    ((run_command cmd (.completed rc out err)).success = true ↔ rc = 0) ∧
    (rc = 0 → (run_command cmd (.completed rc out err)).message =
      (if pyStrip out = "" then genericSuccessMsg else pyStrip out)) ∧
    (rc ≠ 0 → (run_command cmd (.completed rc out err)).message =
      execErrorLead ++
        (if pyStrip err ≠ "" then pyStrip err
         else if pyStrip out ≠ "" then pyStrip out
         else unknownErrMsg rc)) := by
  unfold run_command pyOr
  by_cases hrc : rc = 0 <;>
    by_cases he : pyStrip err = "" <;>
      by_cases ho : pyStrip out = "" <;>
        simp [hrc, he, ho]

/-- Claim C5 witness: concrete failing run with nonempty stderr. -/
theorem C5_run_command_exit_mapping_witness :
    (1 : Int) ≠ 0 ∧
    (run_command ["tt.exe"] (.completed 1 "" "boom")).message =
      execErrorLead ++
        (if pyStrip "boom" ≠ "" then pyStrip "boom"
         else if pyStrip "" ≠ "" then pyStrip ""
         else unknownErrMsg 1) :=
  ⟨by decide, (C5_run_command_exit_mapping ["tt.exe"] 1 "" "boom").2.2 (by decide)⟩

/-- Claim C6: when the child does not finish within the fixed 15-second
timeout of `communicate`, `run_command` kills the child, drains its
output with a second `communicate`, and returns the failure pair
classified by the timeout message — it is a total function of the
outcome and never lets the `TimeoutExpired` exception escape. -/
theorem C6_timeout_behavior (cmd : List String) :
    run_command cmd .timedOut = ⟨false, timeoutMsg, true, true⟩ ∧
    commandTimeoutSeconds = 15 :=
  ⟨rfl, rfl⟩

/-- Claim C9: for every positive monitor number, the power-on and
power-off argument lists agree except in the single `--VCP=` power-state
argument, whose two codes are distinct. -/
theorem C9_power_args_differ_only_in_code (cfg : ExeConfig) (m : Int)
    (hm : 0 < m) (hexe : cfg.baseFound = true ∨ cfg.whichOk = true) :
    ∃ pre : List String,
      get_twinkle_power_command_parts cfg m powerOnVcp =
        .ok (pre ++ ["--VCP=" ++ powerOnVcp]) ∧
      get_twinkle_power_command_parts cfg m powerOffVcp =
        .ok (pre ++ ["--VCP=" ++ powerOffVcp]) ∧
      "--VCP=" ++ powerOnVcp ≠ "--VCP=" ++ powerOffVcp := by
  refine ⟨[cfg.basePath, "--MonitorNum=" ++ toString m], ?_, ?_, by decide⟩ <;>
    · unfold get_twinkle_power_command_parts
      rcases hexe with h | h <;> simp [h, show ¬ m ≤ 0 by omega]

/-- Claim C9 witness: monitor 1 with a configured executable path. -/
theorem C9_power_args_differ_only_in_code_witness :
    (0 : Int) < 1 ∧
    ∃ pre : List String,
      get_twinkle_power_command_parts ⟨"tt.exe", true, false⟩ 1 powerOnVcp =
        .ok (pre ++ ["--VCP=" ++ powerOnVcp]) ∧
      get_twinkle_power_command_parts ⟨"tt.exe", true, false⟩ 1 powerOffVcp =
        .ok (pre ++ ["--VCP=" ++ powerOffVcp]) ∧
      "--VCP=" ++ powerOnVcp ≠ "--VCP=" ++ powerOffVcp :=
  ⟨by decide,
   C9_power_args_differ_only_in_code ⟨"tt.exe", true, false⟩ 1 (by decide) (Or.inl rfl)⟩

/-- Any command list either builder hands to `run_command` starts with
the configured executable path. Shared inversion lemma. -/
theorem builder_head_is_base_path (cfg : ExeConfig) (m : Int) (vcp : String)
    (sel : SelInput) (lvl : PyLevel) (cmd : List String)
    (h : get_twinkle_power_command_parts cfg m vcp = .ok cmd ∨
         get_twinkle_brightness_command_parts cfg sel lvl = .ok cmd) :
    cmd.headD "" = cfg.basePath := by
  rcases h with h | h
  · unfold get_twinkle_power_command_parts at h
    repeat' split at h
    all_goals first
      | (injection h with h; subst h; rfl)
      | injection h
  · unfold get_twinkle_brightness_command_parts at h
    repeat' split at h
    all_goals first
      | (injection h with h; subst h; rfl)
      | injection h

/-- Claim C2 counterexample: the claim states every invocation of the
monitor-control executable passes the no-window creation flag; in the
code the flag is applied only when the first command part is
`powershell`, so the power command built for monitor 1 is launched with
creation flags 0 instead of `CREATE_NO_WINDOW`. -/
theorem C2_counterexample :
    get_twinkle_power_command_parts ⟨"Twinkle Tray.exe", true, true⟩ 1 powerOnVcp =
      .ok ["Twinkle Tray.exe", "--MonitorNum=" ++ toString (1 : Int),
           "--VCP=" ++ powerOnVcp] ∧
    creationFlags "Twinkle Tray.exe" = 0 ∧
    CREATE_NO_WINDOW ≠ 0 :=
  ⟨rfl, by decide, by decide⟩

/-- Claim C2 (amended): the executor applies the no-window creation flag
only when the first command part is case-insensitively `powershell`;
every command either builder produces starts with the configured
executable path, so whenever that path is not the `powershell` literal
the child is created with creation flags 0, not the no-window flag. -/
theorem C2_no_window_flag (cfg : ExeConfig) (m : Int) (vcp : String)
    (sel : SelInput) (lvl : PyLevel) (cmd : List String)
    (h : get_twinkle_power_command_parts cfg m vcp = .ok cmd ∨
         get_twinkle_brightness_command_parts cfg sel lvl = .ok cmd)
    (hps : pyLower cfg.basePath ≠ "powershell") :
    creationFlags (cmd.headD "") = 0 ∧
    creationFlags (cmd.headD "") ≠ CREATE_NO_WINDOW := by
  rw [builder_head_is_base_path cfg m vcp sel lvl cmd h]
  unfold creationFlags
  rw [if_neg hps]
  exact ⟨rfl, by decide⟩

/-- Claim C2 witness: the power command for monitor 1 under a
non-powershell executable path runs with creation flags 0. -/
theorem C2_no_window_flag_witness :
    creationFlags ((["Twinkle Tray.exe", "--MonitorNum=" ++ toString (1 : Int),
      "--VCP=" ++ powerOnVcp] : List String).headD "") = 0 :=
  (C2_no_window_flag ⟨"Twinkle Tray.exe", true, true⟩ 1 powerOnVcp
    ⟨"1", some 1⟩ (.pyInt 50)
    ["Twinkle Tray.exe", "--MonitorNum=" ++ toString (1 : Int), "--VCP=" ++ powerOnVcp]
    (Or.inl rfl) (by decide)).1

/-- Claim C1 counterexample: the claim states an executable-not-found
failure always yields HTTP 500; when the executable is unresolvable at
command-build time the handler takes the builder-error branch and
returns 400 instead, carrying the not-found message. -/
theorem C1_counterexample :
    (monitor_on_vcp ⟨"Twinkle Tray.exe", false, false⟩ 1 (.completed 0 "" "")).message =
      exeNotFoundMsg "Twinkle Tray.exe" ∧
    (monitor_on_vcp ⟨"Twinkle Tray.exe", false, false⟩ 1 (.completed 0 "" "")).code = 400 ∧
    (400 : Nat) ≠ 500 :=
  ⟨rfl, rfl, by decide⟩

/-- Claim C1 (amended): an executable-not-found failure detected at
execution time (`FileNotFoundError` from `Popen`) yields HTTP 500, but
one detected at command-build time is returned through the handlers'
builder-error branch with HTTP 400 and the not-found message. -/
theorem C1_exe_not_found_status (cfg : ExeConfig) (m : Int) (sel : SelInput)
    (lvl : Int) (proc : ProcOutcome) :
    (cfg.baseFound = false ∧ cfg.whichOk = false →
      (monitor_on_vcp cfg m proc).code = 400 ∧
      (monitor_on_vcp cfg m proc).message = exeNotFoundMsg cfg.basePath ∧
      (monitor_off_vcp cfg m proc).code = 400 ∧
      (monitor_off_vcp cfg m proc).message = exeNotFoundMsg cfg.basePath ∧
      (set_monitor_brightness cfg sel lvl proc).code = 400 ∧
      (set_monitor_brightness cfg sel lvl proc).message = exeNotFoundMsg cfg.basePath) ∧
    ((cfg.baseFound = true ∨ cfg.whichOk = true) → 0 < m →
      (monitor_on_vcp cfg m .fileNotFound).code = 500 ∧
      (monitor_off_vcp cfg m .fileNotFound).code = 500) ∧
    ((cfg.baseFound = true ∨ cfg.whichOk = true) → 0 ≤ lvl → lvl ≤ 100 →
      sel.parsed = some m → 0 < m →
      (set_monitor_brightness cfg sel lvl .fileNotFound).code = 500) := by
  refine ⟨?_, ?_, ?_⟩
  · rintro ⟨h1, h2⟩
    simp [monitor_on_vcp, monitor_off_vcp, set_monitor_brightness,
      get_twinkle_power_command_parts, get_twinkle_brightness_command_parts, h1, h2]
  · intro hexe hm
    have hnot : ¬(cfg.baseFound = false ∧ cfg.whichOk = false) := by
      rcases hexe with h | h <;> simp [h]
    simp [monitor_on_vcp, monitor_off_vcp, get_twinkle_power_command_parts,
      hnot, show ¬ m ≤ 0 by omega, run_command]
  · intro hexe h0 h100 hsel hm
    have hnot : ¬(cfg.baseFound = false ∧ cfg.whichOk = false) := by
      rcases hexe with h | h <;> simp [h]
    simp [set_monitor_brightness, get_twinkle_brightness_command_parts, hnot,
      valid_brightness, hsel, show ¬ m = 0 by omega, hm, run_command, h0, h100]

/-- Claim C1 witness: monitor 2 with the executable missing at build
time gives 400; with it resolvable but vanished at execution time gives
500. -/
theorem C1_exe_not_found_status_witness :
    (monitor_on_vcp ⟨"Twinkle Tray.exe", false, false⟩ 2 (.completed 0 "" "")).code = 400 ∧
    (monitor_on_vcp ⟨"tt.exe", true, false⟩ 2 .fileNotFound).code = 500 ∧
    (set_monitor_brightness ⟨"tt.exe", true, false⟩ ⟨"3", some 3⟩ 50 .fileNotFound).code = 500 :=
  ⟨((C1_exe_not_found_status ⟨"Twinkle Tray.exe", false, false⟩ 2 ⟨"3", some 3⟩ 50
      (.completed 0 "" "")).1 ⟨rfl, rfl⟩).1,
   ((C1_exe_not_found_status ⟨"tt.exe", true, false⟩ 2 ⟨"3", some 3⟩ 50
      (.completed 0 "" "")).2.1 (Or.inl rfl) (by decide)).1,
   (C1_exe_not_found_status ⟨"tt.exe", true, false⟩ 3 ⟨"3", some 3⟩ 50
      (.completed 0 "" "")).2.2 (Or.inl rfl) (by decide) (by decide) rfl (by decide)⟩

/-- A status-field value the amended claim C3 allows. -/
def statusVals (s : String) : Prop :=
  s = "success" ∨ s = "error" ∨ s = "info"

/-- Claim C3 counterexample: the claim states every endpoint body has
status `"success"` or `"error"`; the status-placeholder endpoint
returns status `"info"` for a positive monitor number. -/
theorem C3_counterexample :
    (monitor_status_placeholder 1).status = "info" ∧
    ("info" : String) ≠ "success" ∧
    ("info" : String) ≠ "error" :=
  ⟨rfl, by decide, by decide⟩

/-- Claim C3 (amended): every JSON body produced by the modelled
endpoints has a top-level status field equal to `"success"`, `"error"`,
or `"info"`, and the value `"info"` occurs only in the
status-placeholder stub: every other endpoint's status is `"success"`
or `"error"`, never `"info"`. -/
theorem C3_status_field_values :
    ((∀ cfg m proc, statusVals (monitor_on_vcp cfg m proc).status) ∧
     (∀ cfg m proc, statusVals (monitor_off_vcp cfg m proc).status) ∧
     (∀ cfg sel lvl proc, statusVals (set_monitor_brightness cfg sel lvl proc).status) ∧
     (∀ m, statusVals (monitor_status_placeholder m).status) ∧
     (∀ g c w, statusVals (audio_mute g c w).status) ∧
     (∀ g c w, statusVals (audio_unmute g c w).status) ∧
     (∀ g cR cW r w, statusVals (audio_mute_toggle g cR cW r w).resp.status) ∧
     (∀ g c r, statusVals (audio_status g c r).status)) ∧
    ((∀ cfg m proc, (monitor_on_vcp cfg m proc).status ≠ "info") ∧
     (∀ cfg m proc, (monitor_off_vcp cfg m proc).status ≠ "info") ∧
     (∀ cfg sel lvl proc, (set_monitor_brightness cfg sel lvl proc).status ≠ "info") ∧
     (∀ g c w, (audio_mute g c w).status ≠ "info") ∧
     (∀ g c w, (audio_unmute g c w).status ≠ "info") ∧
     (∀ g cR cW r w, (audio_mute_toggle g cR cW r w).resp.status ≠ "info") ∧
     (∀ g c r, (audio_status g c r).status ≠ "info")) := by
  constructor
  · refine ⟨?_, ?_, ?_, ?_, ?_, ?_, ?_, ?_⟩ <;> intros <;>
      dsimp only [monitor_on_vcp, monitor_off_vcp, set_monitor_brightness,
        monitor_status_placeholder, audio_mute, audio_unmute, audio_mute_toggle,
        audio_status, statusVals] <;>
      (repeat' split) <;>
      simp
  · refine ⟨?_, ?_, ?_, ?_, ?_, ?_, ?_⟩ <;> intros <;>
      dsimp only [monitor_on_vcp, monitor_off_vcp, set_monitor_brightness,
        audio_mute, audio_unmute, audio_mute_toggle, audio_status] <;>
      (repeat' split) <;>
      simp

/-- Claim C4: the brightness builder returns the executable-not-found
error whenever the executable is unresolvable, regardless of the other
parameters; otherwise an out-of-range or non-integer level yields the
level validation error and no argument list (`.error` renders the
source's `(None, error)`); otherwise a positive parsed selector yields
the specific-monitor argument list, selector 0 or a non-parsing string
lower-casing to `all` yields the broadcast list, and a negative parsed
selector or other non-parsing string yields the target validation
error. -/
theorem C4_brightness_builder_spec (cfg : ExeConfig) (sel : SelInput) (lvl : PyLevel) :
    (cfg.baseFound = false ∧ cfg.whichOk = false →
      get_twinkle_brightness_command_parts cfg sel lvl =
        .error (exeNotFoundMsg cfg.basePath)) ∧
    ((cfg.baseFound = true ∨ cfg.whichOk = true) →
      (∀ n : Int, lvl = .pyInt n → n < 0 ∨ 100 < n →
        get_twinkle_brightness_command_parts cfg sel lvl = .error brightnessRangeMsg) ∧
      (lvl = .nonInt →
        get_twinkle_brightness_command_parts cfg sel lvl = .error brightnessRangeMsg)) ∧
    ((cfg.baseFound = true ∨ cfg.whichOk = true) → ∀ n : Int, 0 ≤ n → n ≤ 100 →
      lvl = .pyInt n →
      (∀ k : Int, sel.parsed = some k → 0 < k →
        get_twinkle_brightness_command_parts cfg sel lvl =
          .ok [cfg.basePath, "--MonitorNum=" ++ toString k, "--Set=" ++ toString n]) ∧
      (sel.parsed = some 0 →
        get_twinkle_brightness_command_parts cfg sel lvl =
          .ok [cfg.basePath, "--AllMonitors", "--Set=" ++ toString n]) ∧
      (sel.parsed = none → pyLower sel.raw = "all" →
        get_twinkle_brightness_command_parts cfg sel lvl =
          .ok [cfg.basePath, "--AllMonitors", "--Set=" ++ toString n]) ∧
      (∀ k : Int, sel.parsed = some k → k < 0 →
        get_twinkle_brightness_command_parts cfg sel lvl = .error negMonitorMsg) ∧
      (sel.parsed = none → pyLower sel.raw ≠ "all" →
        get_twinkle_brightness_command_parts cfg sel lvl =
          .error (invalidMonitorMsg sel.raw))) := by
  refine ⟨?_, ?_, ?_⟩
  · rintro ⟨h1, h2⟩
    simp [get_twinkle_brightness_command_parts, h1, h2]
  · intro hexe
    have hnot : ¬(cfg.baseFound = false ∧ cfg.whichOk = false) := by
      rcases hexe with h | h <;> simp [h]
    constructor
    · rintro n rfl hout
      have hv : valid_brightness (.pyInt n) = false := by
        simp [valid_brightness]; omega
      simp [get_twinkle_brightness_command_parts, hnot, hv]
    · rintro rfl
      simp [get_twinkle_brightness_command_parts, hnot, valid_brightness]
  · rintro hexe n h0 h100 rfl
    have hnot : ¬(cfg.baseFound = false ∧ cfg.whichOk = false) := by
      rcases hexe with h | h <;> simp [h]
    have hv : valid_brightness (.pyInt n) = true := by
      simp [valid_brightness]; omega
    refine ⟨?_, ?_, ?_, ?_, ?_⟩
    · rintro k hk hkpos
      simp [get_twinkle_brightness_command_parts, hnot, hv, hk, levelStr,
        show ¬ k = 0 by omega, hkpos]
    · intro hk
      simp [get_twinkle_brightness_command_parts, hnot, hv, hk, levelStr]
    · intro hk hall
      simp [get_twinkle_brightness_command_parts, hnot, hv, hk, hall, levelStr]
    · rintro k hk hkneg
      simp [get_twinkle_brightness_command_parts, hnot, hv, hk,
        show ¬ k = 0 by omega, show ¬ 0 < k by omega]
    · intro hk hall
      simp [get_twinkle_brightness_command_parts, hnot, hv, hk, hall]

/-- Claim C4 witness: resolvable executable, selector string `2`
parsing to 2, level 50, yields the specific-monitor argument list. -/
theorem C4_brightness_builder_spec_witness :
    get_twinkle_brightness_command_parts ⟨"tt.exe", true, false⟩ ⟨"2", some 2⟩ (.pyInt 50) =
      .ok ["tt.exe", "--MonitorNum=" ++ toString (2 : Int), "--Set=" ++ toString (50 : Int)] :=
  ((C4_brightness_builder_spec ⟨"tt.exe", true, false⟩ ⟨"2", some 2⟩ (.pyInt 50)).2.2
    (Or.inl rfl) 50 (by decide) (by decide) rfl).1 2 rfl (by decide)

/-- Claim C7: in the mute-toggle handler (with pycaw loaded, so the
operation actually runs), a failed read — the `None` first component of
`get_system_mute_status` — produces a 500 error response carrying the
read error in `details`, with `set_system_mute` never invoked; the
write is invoked only after a successful read and with the inverted
state; and a success response reports the inversion of the state that
was read. -/
theorem C7_toggle_read_guard (g : AudioGlobals) (cR cW : ComCallOutcome)
    (read : MuteReadOutcome) (write : MuteWriteOutcome)
    (hpy : g.pycawLoaded = true) :
    (∀ msg, get_system_mute_status g cR read = (none, msg) →
      (audio_mute_toggle g cR cW read write).writeCalled = false ∧
      (audio_mute_toggle g cR cW read write).resp.code = 500 ∧
      (audio_mute_toggle g cR cW read write).resp.status = "error" ∧
      (audio_mute_toggle g cR cW read write).resp.details = some msg) ∧
    ((audio_mute_toggle g cR cW read write).writeCalled = true →
      ∃ b msg, get_system_mute_status g cR read = (some b, msg) ∧
        (audio_mute_toggle g cR cW read write).writeArg = some (!b)) ∧
    (∀ b msg, get_system_mute_status g cR read = (some b, msg) →
      (audio_mute_toggle g cR cW read write).resp.status = "success" →
      (audio_mute_toggle g cR cW read write).resp.audio_muted = some (!b)) := by
  rcases hs : get_system_mute_status g cR read with ⟨ob, m⟩
  cases ob with
  | none =>
    refine ⟨?_, ?_, ?_⟩
    · intro msg hmsg
      injection hmsg with h1 h2
      subst h2
      simp [audio_mute_toggle, hpy, hs]
    · intro hw
      simp [audio_mute_toggle, hpy, hs] at hw
    · intro b msg hmsg
      simp at hmsg
  | some b0 =>
    refine ⟨?_, ?_, ?_⟩
    · intro msg hmsg
      simp at hmsg
    · intro _
      refine ⟨b0, m, rfl, ?_⟩
      cases hw : (set_system_mute g cW write (!b0)).1 <;>
        simp [audio_mute_toggle, hpy, hs, hw]
    · intro b msg hmsg hsucc
      simp only [Prod.mk.injEq, Option.some.injEq] at hmsg
      obtain ⟨rfl, rfl⟩ := hmsg
      cases hw : (set_system_mute g cW write (!b0)).1 with
      | false => simp [audio_mute_toggle, hpy, hs, hw] at hsucc
      | true => simp [audio_mute_toggle, hpy, hs, hw]

/-- Claim C7 witness: a healthy read of an unmuted device followed by a
successful write toggles to muted. -/
theorem C7_toggle_read_guard_witness :
    (audio_mute_toggle ⟨true, true⟩ ⟨.hr 0, .gotDirect, .ok⟩ ⟨.hr 0, .gotDirect, .ok⟩
      (.ok 0) .ok).resp.audio_muted = some true :=
  (C7_toggle_read_guard ⟨true, true⟩ ⟨.hr 0, .gotDirect, .ok⟩ ⟨.hr 0, .gotDirect, .ok⟩
    (.ok 0) .ok rfl).2.2 false muteStatusOkMsg rfl rfl

/-- Claim C8: on every path of `_get_master_volume_control` — pycaw
missing, COM-initialization failure, body failure or success — the
`finally` block calls `CoUninitialize` exactly when this call's
`CoInitializeEx` succeeded (the `com_initialized_here` flag), so it
releases what it initialized on success, failure and exception paths
alike and never releases a session it did not initialize; and an error
raised by `CoUninitialize` itself is swallowed into a warning, so the
returned result does not depend on it. -/
theorem C8_com_release_protocol (g : AudioGlobals) (ci : CoInitOutcome)
    (b : VolumeBodyOutcome) (u u1 u2 : UninitOutcome) :
    ((_get_master_volume_control g ⟨ci, b, u⟩).coUninitCalled =
      (_get_master_volume_control g ⟨ci, b, u⟩).comInitializedHere) ∧
    ((_get_master_volume_control g ⟨ci, b, u1⟩).result =
      (_get_master_volume_control g ⟨ci, b, u2⟩).result) := by
  rcases g with ⟨pycaw, pycom⟩
  constructor
  · cases pycaw <;> cases pycom <;> cases ci <;> cases b <;>
      simp [_get_master_volume_control, comPhase, volumeBody] <;>
      split <;> simp
  · cases pycaw <;> cases pycom <;> cases ci <;> cases b <;>
      simp [_get_master_volume_control, comPhase, volumeBody]

/-- Claim C10: the mute-status read returns `None` only on failure, so
a successful read of an unmuted device returns the distinct value
`(False, success message)`; the status endpoint distinguishes the two
with an is-`None` test and therefore answers 200 with
`audio_muted = false` for an unmuted device instead of the 500 failure
branch. -/
theorem C10_none_sentinel (g : AudioGlobals) (c : ComCallOutcome)
    (hpy : g.pycawLoaded = true)
    (hacq : (_get_master_volume_control g c).result = .ok ()) :
    get_system_mute_status g c (.ok 0) = (some false, muteStatusOkMsg) ∧
    (some false ≠ (none : Option Bool)) ∧
    (audio_status g c (.ok 0)).code = 200 ∧
    (audio_status g c (.ok 0)).status = "success" ∧
    (audio_status g c (.ok 0)).audio_muted = some false := by
  have hgs : get_system_mute_status g c (.ok 0) = (some false, muteStatusOkMsg) := by
    simp [get_system_mute_status, hacq]
  refine ⟨hgs, by simp, ?_, ?_, ?_⟩ <;> simp [audio_status, hpy, hgs]

/-- Claim C10 witness: concrete healthy COM call reading an unmuted
device. -/
theorem C10_none_sentinel_witness :
    (audio_status ⟨true, true⟩ ⟨.hr 0, .gotDirect, .ok⟩ (.ok 0)).code = 200 ∧
    (audio_status ⟨true, true⟩ ⟨.hr 0, .gotDirect, .ok⟩ (.ok 0)).audio_muted = some false :=
  ⟨(C10_none_sentinel ⟨true, true⟩ ⟨.hr 0, .gotDirect, .ok⟩ rfl rfl).2.2.1,
   (C10_none_sentinel ⟨true, true⟩ ⟨.hr 0, .gotDirect, .ok⟩ rfl rfl).2.2.2.2⟩

end WinIoT
